import Mathlib

/-!
Verification development for `kubespawner/proxy.py` (`KubeIngressProxy`).

The file shallowly embeds the route reconciliation engine:

* the Name Codec (`safe_name_for_routespec`, with `escapism.escape` and
  `generate_hashed_slug` modelled from the spec since their sources are
  external to the shown module);
* the Route Reconciler (`add_route`, with its inner `ensure_object`
  create-or-patch protocol and the cache-confirmation waits);
* the Route Teardown (`delete_route` and `delete_if_exists`);
* the Route Table View (`get_all_routes`).

Cluster interactions are modelled by an oracle (`World`) giving the outcome
of each API call and the time-indexed visibility of each resource kind in
the watch cache.  Each operation returns the list of API calls it issued
(`Event`s, in issuing order) together with its outcome (`Except PyErr Unit`,
where `PyErr.apiErr s` is `kubernetes.client.rest.ApiException` with HTTP
status `s`).

A crucial point of the Python source, preserved by this embedding: in
`delete_route` (lines 249-266) and in the endpoint-absent branch of
`add_route` (line 207), the API delete coroutines are `await`ed directly at
the call site, so an `ApiException` (including 404) propagates there, before
`delete_if_exists` ever runs; and the value later passed to
`delete_if_exists` as `future` is the already-awaited response object, on
which `await future` raises `TypeError` (a plain response object is not
awaitable).  This is modelled by `await_resolved`.
-/

/-- The three resource kinds managed per route. -/
inductive Kind
  | endpoints
  | service
  | ingress
deriving DecidableEq, Repr

/-- Outcome of one cluster API call: success, or failure with an HTTP status. -/
inductive ApiOutcome
  | success
  | fail (status : Nat)
deriving DecidableEq, Repr

/-- Python-level error outcomes of the embedded coroutines.
`apiErr s` is `client.rest.ApiException` with status `s`; `timeoutErr` is the
`TimeoutError` raised by an exhausted `exponential_backoff`; `typeErr` is the
`TypeError` raised by `await`ing a non-awaitable value. -/
inductive PyErr
  | apiErr (status : Nat)
  | timeoutErr
  | typeErr
deriving DecidableEq, Repr

/-- One observable interaction of the proxy with the cluster, in issuing
order.  `create`/`patch`/`delete` record an API call (addressed namespace and
resource name); `confirmed` records a successful cache-visibility wait. -/
inductive Event
  | create (k : Kind) (ns nm : String)
  | patch (k : Kind) (ns nm : String)
  | delete (k : Kind) (ns nm : String)
  | confirmed (k : Kind) (ns nm : String)
deriving DecidableEq, Repr

/-- The resource kind an event concerns. -/
def eventKind : Event → Kind
  | Event.create k _ _ => k
  | Event.patch k _ _ => k
  | Event.delete k _ _ => k
  | Event.confirmed k _ _ => k

/-- The resource name an event addresses. -/
def eventName : Event → String
  | Event.create _ _ n => n
  | Event.patch _ _ n => n
  | Event.delete _ _ n => n
  | Event.confirmed _ _ n => n

/-- The namespace an event addresses. -/
def eventNs : Event → String
  | Event.create _ ns _ => ns
  | Event.patch _ ns _ => ns
  | Event.delete _ ns _ => ns
  | Event.confirmed _ ns _ => ns

/-- Whether an event is a patch (replace) call. -/
def isPatchEvent : Event → Bool
  | Event.patch _ _ _ => true
  | _ => false

/-- The patch (replace) calls contained in a trace. -/
def patchEvents (l : List Event) : List Event := l.filter isPatchEvent

/-! ## Name Codec -/

/-- The safe alphabet of `safe_name_for_routespec`:
`set(string.ascii_lowercase + string.digits)` (proxy.py line 143). -/
def safe_chars (c : Char) : Bool := c.isLower || c.isDigit

/-- Fuel-indexed lowercase hex rendering of a natural number. -/
def hexAux : Nat → Nat → List Char
  | 0, _ => []
  | fuel + 1, n =>
    if n < 16 then [Nat.digitChar n]
    else hexAux fuel (n / 16) ++ [Nat.digitChar (n % 16)]

/-- Lowercase hex digits of a natural number. -/
def codePointHex (n : Nat) : List Char := hexAux (n + 1) n

/-- Concatenation of `f` over a list of characters, left to right. -/
def concatChars (f : Char → List Char) : List Char → List Char
  | [] => []
  | c :: cs => f c ++ concatChars f cs

/-- Modelled from the spec: `escapism.escape` (third-party escaping utility,
out of scope in the source).  Characters in the safe alphabet pass through
unchanged; every other character becomes an escape sequence built from the
reserved escape character followed by the lowercase hex code of the
character. -/
def escape (s : String) (safe : Char → Bool) (escape_char : Char) : String :=
  String.mk (concatChars
    (fun c => if safe c then [c] else escape_char :: codePointHex c.toNat)
    s.data)

/-- Modelled from the spec: a deterministic hash of a string, the stand-in
for the collision-resistant digest inside `generate_hashed_slug`
(`kubespawner/utils.py`, not part of the shown module). -/
def hashString (s : String) : Nat :=
  s.data.foldl (fun h c => (h * 31 + c.toNat) % 16777216) 5381

/-- Modelled from the spec: the six-character lowercase hex digest suffix
used by `generate_hashed_slug`. -/
def hash6 (s : String) : List Char :=
  let h := hashString s
  [Nat.digitChar (h / 1048576 % 16), Nat.digitChar (h / 65536 % 16),
   Nat.digitChar (h / 4096 % 16), Nat.digitChar (h / 256 % 16),
   Nat.digitChar (h / 16 % 16), Nat.digitChar (h % 16)]

/-- Modelled from the spec: `generate_hashed_slug` from `kubespawner/utils.py`
(not part of the shown module) — the "hashing/truncation step that produces a
bounded-length, cluster-identifier-legal string".  A slug short enough for
the 63-character bound passes through unchanged; a longer slug is truncated
to 56 characters and suffixed with `-` and a six-character digest of the
whole slug. -/
def generate_hashed_slug (slug : String) : String :=
  if slug.length < 57 then slug
  else String.mk (slug.data.take 56 ++ '-' :: hash6 slug)

/-- `KubeIngressProxy.safe_name_for_routespec` (proxy.py lines 142-149):
escape the routespec into the safe alphabet with escape character `-`,
bracket with the literals `jupyter-` and `-route`, and hash/truncate. -/
def safe_name_for_routespec (routespec : String) : String :=
  generate_hashed_slug ("jupyter-" ++ escape routespec safe_chars '-' ++ "-route")

/-- Python `str.lower`, applied to the safe name at both call sites
(proxy.py lines 165 and 245). -/
def pyLower (s : String) : String := String.mk (s.data.map Char.toLower)

/-! ## Resource bodies and the Resource Builder -/

/-- The metadata of one submitted resource body: `metadata.name`,
`metadata.labels`, `metadata.annotations`. -/
structure KubeBody where
  name : String
  labels : List (String × String)
  annots : List (String × String)
deriving DecidableEq, Repr

/-- Annotation key holding the routespec on the Ingress. -/
def routespecKey : String := "hub.jupyter.org/proxy-routespec"

/-- Annotation key holding the target on the Ingress. -/
def targetKey : String := "hub.jupyter.org/proxy-target"

/-- Annotation key holding the JSON-encoded data payload on the Ingress. -/
def dataKey : String := "hub.jupyter.org/proxy-data"

/-- The labels attached by `add_route` (proxy.py lines 166-170). -/
def add_route_labels (component_label : String) : List (String × String) :=
  [("heritage", "jupyterhub"), ("component", component_label),
   ("hub.jupyter.org/proxy-route", "true")]

/-- Modelled from the spec: the Resource Builder `make_ingress` from
`kubespawner/objects.py` (external collaborator, not part of the shown
module).  It returns the endpoint-mapping body only when the builder's
policy accepts the target (e.g. the target is a raw IP:port — the policy is
abstracted as `ipPolicy`), always returns a service body and an ingress
body named `safe_name`, and round-trips `routespec`, `target` and the
JSON-serialized `data` through the three fixed annotation keys on the
ingress body.  `dumps` abstracts `json.dumps`. -/
def make_ingress {J : Type} (ipPolicy : String → Bool) (dumps : J → String)
    (safe_name routespec target : String) (labels : List (String × String))
    (data : J) : Option KubeBody × KubeBody × KubeBody :=
  ((if ipPolicy target then some ⟨safe_name, labels, []⟩ else none),
   ⟨safe_name, labels, []⟩,
   ⟨safe_name, labels,
     [(routespecKey, routespec), (targetKey, target), (dataKey, dumps data)]⟩)

/-! ## The cluster oracle -/

/-- Oracle for one run: the outcome each API call would have, and the
time-indexed visibility of the key `namespace/safe_name` in each kind's
watch cache (`visible k i` is whether the key is present at the i-th poll
of a confirmation wait).  `ns` is `self.namespace`; `component_label` is the
configurable component label; `backoffBudget` is the bounded number of polls
the capped exponential backoff performs before timing out. -/
structure World where
  ns : String
  component_label : String
  createOutcome : Kind → ApiOutcome
  patchOutcome : Kind → ApiOutcome
  deleteOutcome : Kind → ApiOutcome
  visible : Kind → Nat → Bool
  backoffBudget : Nat

/-- Modelled from the spec: `jupyterhub.utils.exponential_backoff` (external
collaborator) — polls `pass_func` under a capped exponential backoff with a
bounded budget of attempts; succeeds as soon as a poll passes and raises
`TimeoutError` once the budget is exhausted.  Boundedness of the budget is
what "does not loop forever" means in this embedding. -/
def exponential_backoff (pass_func : Nat → Bool) (budget : Nat) : Except PyErr Unit :=
  if (List.range budget).any pass_func then Except.ok () else Except.error PyErr.timeoutErr

/-- Sequencing of two awaited steps: if the first raises, its exception
propagates and the second never runs — its events are not issued and its
outcome is discarded; otherwise the traces concatenate and the second's
outcome stands. -/
def awaitSeq (a b : List Event × Except PyErr Unit) : List Event × Except PyErr Unit :=
  match a with
  | (tr, Except.error e) => (tr, Except.error e)
  | (tr, Except.ok _) => (tr ++ b.1, b.2)

/-- The nested `ensure_object` of `add_route` (proxy.py lines 175-191):
try `create_func(namespace, body)`; on `ApiException` with status 409 issue
one `patch_func(namespace, body, name=body.metadata.name)`; re-raise any
other status. -/
def ensure_object (createO patchO : ApiOutcome) (ns : String) (body : KubeBody)
    (k : Kind) : List Event × Except PyErr Unit :=
  match createO with
  | ApiOutcome.success => ([Event.create k ns body.name], Except.ok ())
  | ApiOutcome.fail s =>
    if s = 409 then
      match patchO with
      | ApiOutcome.success =>
        ([Event.create k ns body.name, Event.patch k ns body.name], Except.ok ())
      | ApiOutcome.fail s2 =>
        ([Event.create k ns body.name, Event.patch k ns body.name],
         Except.error (PyErr.apiErr s2))
    else
      ([Event.create k ns body.name], Except.error (PyErr.apiErr s))

/-- One `await exponential_backoff(lambda: f'ns/safe_name' in cache.keys(), ...)`
confirmation wait of `add_route`; on success it is recorded as a `confirmed`
event. -/
def wait_step (vis : Nat → Bool) (budget : Nat) (k : Kind) (ns safe_name : String) :
    List Event × Except PyErr Unit :=
  match exponential_backoff vis budget with
  | Except.error e => ([], Except.error e)
  | Except.ok _ => ([Event.confirmed k ns safe_name], Except.ok ())

/-- The result of `await future` when `future` is the already-awaited
response object: in Python, `await` on a plain (non-awaitable) value raises
`TypeError`.  Both call sites of `delete_if_exists` (proxy.py lines 212 and
276-278) pass such an already-awaited value. -/
def await_resolved : Except PyErr Unit := Except.error PyErr.typeErr

/-- `KubeIngressProxy.delete_if_exists` (proxy.py lines 151-158) as a
function of what `await future` yields: a 404 `ApiException` is swallowed
("does not exist"), any other `ApiException` — and any non-`ApiException`
such as `TypeError` — propagates. -/
def delete_if_exists (awaited : Except PyErr Unit) : Except PyErr Unit :=
  match awaited with
  | Except.ok _ => Except.ok ()
  | Except.error (PyErr.apiErr s) =>
    if s = 404 then Except.ok () else Except.error (PyErr.apiErr s)
  | Except.error e => Except.error e

/-- The endpoint-mapping step of `add_route` (proxy.py lines 193-212): with a
builder-produced body, create-or-patch then wait for cache visibility; with
no body, `await` the endpoint deletion at the call site (line 207 — so any
`ApiException`, 404 included, propagates right there) and then run
`delete_if_exists` on the already-awaited response (line 212 — `TypeError`). -/
def endpoint_step (w : World) (endpoint : Option KubeBody) (safe_name : String) :
    List Event × Except PyErr Unit :=
  match endpoint with
  | some body =>
    awaitSeq
      (ensure_object (w.createOutcome Kind.endpoints) (w.patchOutcome Kind.endpoints)
        w.ns body Kind.endpoints)
      (wait_step (w.visible Kind.endpoints) w.backoffBudget Kind.endpoints
        w.ns safe_name)
  | none =>
    match w.deleteOutcome Kind.endpoints with
    | ApiOutcome.fail s =>
      ([Event.delete Kind.endpoints w.ns safe_name], Except.error (PyErr.apiErr s))
    | ApiOutcome.success =>
      ([Event.delete Kind.endpoints w.ns safe_name], delete_if_exists await_resolved)

/-- The body of `add_route` after the three resource bodies are built
(proxy.py lines 193-238): the endpoint-mapping step, the service upsert and
wait, and the ingress upsert and wait, strictly in that order, each step
only starting after the previous one returned without raising. -/
def add_route_core (w : World) (endpoint : Option KubeBody) (service ingress : KubeBody)
    (safe_name : String) : List Event × Except PyErr Unit :=
  awaitSeq (endpoint_step w endpoint safe_name)
    (awaitSeq (ensure_object (w.createOutcome Kind.service) (w.patchOutcome Kind.service)
        w.ns service Kind.service)
      (awaitSeq (wait_step (w.visible Kind.service) w.backoffBudget Kind.service
          w.ns safe_name)
        (awaitSeq (ensure_object (w.createOutcome Kind.ingress)
            (w.patchOutcome Kind.ingress) w.ns ingress Kind.ingress)
          (wait_step (w.visible Kind.ingress) w.backoffBudget Kind.ingress
            w.ns safe_name))))

/-- `KubeIngressProxy.add_route` (proxy.py lines 160-238): compute the safe
name, build the three bodies via the Resource Builder, then run the three
resource steps in order. -/
def add_route {J : Type} (ipPolicy : String → Bool) (dumps : J → String) (w : World)
    (routespec target : String) (data : J) : List Event × Except PyErr Unit :=
  let safe_name := pyLower (safe_name_for_routespec routespec)
  let labels := add_route_labels w.component_label
  match make_ingress ipPolicy dumps safe_name routespec target labels data with
  | (endpoint, service, ingress) => add_route_core w endpoint service ingress safe_name

/-- `KubeIngressProxy.delete_route` (proxy.py lines 240-279) as written: each
of the three deletions is `await`ed directly at its call site (lines 249,
255, 261), so they run one after another and the first `ApiException`
(404 included) propagates immediately, the later deletions never being
issued.  If all three succeed, `asyncio.gather` then runs the three
`delete_if_exists` coroutines, each of which `await`s an already-awaited
response and raises `TypeError`. -/
def delete_route (w : World) (routespec : String) : List Event × Except PyErr Unit :=
  let safe_name := pyLower (safe_name_for_routespec routespec)
  match w.deleteOutcome Kind.endpoints with
  | ApiOutcome.fail s =>
    ([Event.delete Kind.endpoints w.ns safe_name], Except.error (PyErr.apiErr s))
  | ApiOutcome.success =>
    match w.deleteOutcome Kind.service with
    | ApiOutcome.fail s =>
      ([Event.delete Kind.endpoints w.ns safe_name,
        Event.delete Kind.service w.ns safe_name], Except.error (PyErr.apiErr s))
    | ApiOutcome.success =>
      match w.deleteOutcome Kind.ingress with
      | ApiOutcome.fail s =>
        ([Event.delete Kind.endpoints w.ns safe_name,
          Event.delete Kind.service w.ns safe_name,
          Event.delete Kind.ingress w.ns safe_name], Except.error (PyErr.apiErr s))
      | ApiOutcome.success =>
        ([Event.delete Kind.endpoints w.ns safe_name,
          Event.delete Kind.service w.ns safe_name,
          Event.delete Kind.ingress w.ns safe_name],
         match delete_if_exists await_resolved, delete_if_exists await_resolved,
             delete_if_exists await_resolved with
         | Except.ok _, Except.ok _, Except.ok _ => Except.ok ()
         | Except.error e, _, _ => Except.error e
         | _, Except.error e, _ => Except.error e
         | _, _, Except.error e => Except.error e)

/-! ## Route Table View -/

/-- The externally visible record of one route. -/
structure RouteRecord (J : Type) where
  routespec : String
  target : String
  data : J
deriving DecidableEq, Repr

/-- Failure modes of `get_all_routes`: a missing annotation key (Python
`KeyError`) or an undecodable data payload (`json.JSONDecodeError`). -/
inductive RouteErr
  | keyErr
  | jsonErr
deriving DecidableEq, Repr

/-- Lookup of one annotation key on a cached resource
(`ingress["metadata"]["annotations"][key]`, as an `Option`). -/
def lookupAnnot (b : KubeBody) (k : String) : Option String :=
  (b.annots.find? (fun p => p.1 == k)).map Prod.snd

/-- Projection of one cached ingress into its keyed `RouteRecord`, reading
the three fixed annotation keys and JSON-decoding the data payload
(`loads` abstracts `json.loads`); a missing key or an undecodable payload
raises. -/
def route_record_of_ingress {J : Type} (loads : String → Option J) (b : KubeBody) :
    Except RouteErr (String × RouteRecord J) :=
  match lookupAnnot b routespecKey with
  | none => Except.error RouteErr.keyErr
  | some r =>
    match lookupAnnot b targetKey with
    | none => Except.error RouteErr.keyErr
    | some t =>
      match lookupAnnot b dataKey with
      | none => Except.error RouteErr.keyErr
      | some s =>
        match loads s with
        | none => Except.error RouteErr.jsonErr
        | some d => Except.ok (r, ⟨r, t, d⟩)

/-- `KubeIngressProxy.get_all_routes` (proxy.py lines 281-301): project every
ingress of the cache snapshot, in iteration order, into the routespec-keyed
route table; the first projection failure aborts the whole call.  The
returned association list stands for the Python dict built by the
comprehension: a lookup takes the last binding of a key (later entries of a
dict comprehension overwrite earlier ones). -/
def get_all_routes {J : Type} (loads : String → Option J) :
    List KubeBody → Except RouteErr (List (String × RouteRecord J))
  | [] => Except.ok []
  | b :: rest =>
    match route_record_of_ingress loads b with
    | Except.error e => Except.error e
    | Except.ok kv =>
      match get_all_routes loads rest with
      | Except.error e => Except.error e
      | Except.ok l => Except.ok (kv :: l)

/-- Lookup in the route table built by `get_all_routes`: the last binding of
the key wins, matching Python dict-comprehension overwrite semantics. -/
def dictGet {V : Type} (l : List (String × V)) (k : String) : Option V :=
  (l.reverse.find? (fun p => p.1 == k)).map Prod.snd

/-! ## Concrete worlds used as test vectors -/

/-- A healthy cluster: every API call succeeds and every write becomes
visible at the first poll. -/
def wGood : World :=
  ⟨"default", "singleuser-server", fun _ => ApiOutcome.success,
   fun _ => ApiOutcome.success, fun _ => ApiOutcome.success, fun _ _ => true, 1⟩

/-- A cluster in which none of the three resources exist: every deletion
fails with 404; everything else succeeds. -/
def wAllAbsent : World :=
  ⟨"default", "singleuser-server", fun _ => ApiOutcome.success,
   fun _ => ApiOutcome.success, fun _ => ApiOutcome.fail 404, fun _ _ => true, 1⟩

/-- A cluster in which the endpoint-mapping deletion fails with status 500
and everything else succeeds. -/
def wEpDelete500 : World :=
  ⟨"default", "singleuser-server", fun _ => ApiOutcome.success,
   fun _ => ApiOutcome.success,
   fun k => match k with
     | Kind.endpoints => ApiOutcome.fail 500
     | _ => ApiOutcome.success,
   fun _ _ => true, 1⟩

/-- A cluster in which every create conflicts (409) and every patch
succeeds. -/
def wAllConflict : World :=
  ⟨"default", "singleuser-server", fun _ => ApiOutcome.fail 409,
   fun _ => ApiOutcome.success, fun _ => ApiOutcome.success, fun _ _ => true, 1⟩

/-- A cluster in which every API call succeeds but the created ingress never
becomes visible in the ingress cache. -/
def wIngressStale : World :=
  ⟨"default", "singleuser-server", fun _ => ApiOutcome.success,
   fun _ => ApiOutcome.success, fun _ => ApiOutcome.success,
   fun k _ => match k with
     | Kind.ingress => false
     | _ => true,
   3⟩

/-- A well-formed cached ingress used as a concrete test vector. -/
def goodIngressObj : KubeBody :=
  ⟨"jupyter-a-route", [],
   [(routespecKey, "/a"), (targetKey, "http://1.2.3.4:80"), (dataKey, "1")]⟩

/-- A malformed cached ingress (no data annotation) used as a concrete test
vector. -/
def badIngressObj : KubeBody :=
  ⟨"jupyter-b-route", [], [(routespecKey, "/b"), (targetKey, "http://5.6.7.8:80")]⟩

/-! ## Helper lemmas about traces and outcomes -/

theorem data_append_eq (s t : String) : (s ++ t).data = s.data ++ t.data := by
  cases s
  cases t
  rfl

theorem length_append_eq (s t : String) : (s ++ t).length = s.length + t.length := by
  cases s
  cases t
  simp [String.length, String.append, List.length_append]

theorem mem_awaitSeq (a b : List Event × Except PyErr Unit) (e : Event)
    (he : e ∈ (awaitSeq a b).1) : e ∈ a.1 ∨ e ∈ b.1 := by
  rcases a with ⟨tr, res⟩
  cases res with
  | error err => exact Or.inl he
  | ok u => exact List.mem_append.mp he

theorem awaitSeq_ok (a b : List Event × Except PyErr Unit)
    (h : (awaitSeq a b).2 = Except.ok ()) :
    a.2 = Except.ok () ∧ b.2 = Except.ok ()
      ∧ (awaitSeq a b).1 = a.1 ++ b.1 := by
  rcases a with ⟨tr, res⟩
  cases res with
  | error err => exact absurd h (by simp [awaitSeq])
  | ok u =>
    cases u
    exact ⟨rfl, h, rfl⟩

theorem ensure_object_trace (createO patchO : ApiOutcome) (ns : String)
    (body : KubeBody) (k : Kind) :
    ∀ e ∈ (ensure_object createO patchO ns body k).1,
      eventKind e = k ∧ eventName e = body.name ∧ eventNs e = ns := by
  intro e he
  cases createO with
  | success =>
    simp [ensure_object] at he
    subst he
    exact ⟨rfl, rfl, rfl⟩
  | fail s =>
    by_cases hs : s = 409
    · subst hs
      cases patchO with
      | success =>
        simp [ensure_object] at he
        rcases he with rfl | rfl
        · exact ⟨rfl, rfl, rfl⟩
        · exact ⟨rfl, rfl, rfl⟩
      | fail s2 =>
        simp [ensure_object] at he
        rcases he with rfl | rfl
        · exact ⟨rfl, rfl, rfl⟩
        · exact ⟨rfl, rfl, rfl⟩
    · simp [ensure_object, hs] at he
      subst he
      exact ⟨rfl, rfl, rfl⟩

theorem wait_step_trace (vis : Nat → Bool) (budget : Nat) (k : Kind) (ns sn : String) :
    ∀ e ∈ (wait_step vis budget k ns sn).1, e = Event.confirmed k ns sn := by
  intro e he
  unfold wait_step at he
  cases hb : exponential_backoff vis budget with
  | error err => rw [hb] at he; cases he
  | ok u =>
    rw [hb] at he
    simpa using he

theorem wait_step_ok (vis : Nat → Bool) (budget : Nat) (k : Kind) (ns sn : String)
    (h : (wait_step vis budget k ns sn).2 = Except.ok ()) :
    wait_step vis budget k ns sn = ([Event.confirmed k ns sn], Except.ok ()) := by
  unfold wait_step at h ⊢
  cases hb : exponential_backoff vis budget with
  | error err => rw [hb] at h; cases h
  | ok u => rfl

/-! ## C1 — teardown tolerance of absent resources -/

/-- C1: the claim fails on the code.  In a cluster where none of the three
resources exist, `delete_route` does not complete without error: the very
first deletion (`await self.core_api.delete_namespaced_endpoints(...)`,
proxy.py line 249) raises its 404 `ApiException` at the call site, before
`delete_if_exists` can classify it, and the whole call fails with that 404.
The trace shows the service and ingress deletions are never even issued. -/
theorem delete_route_all_absent_raises_404 :
    delete_route wAllAbsent "/user/a"
      = ([Event.delete Kind.endpoints "default"
            (pyLower (safe_name_for_routespec "/user/a"))],
         Except.error (PyErr.apiErr 404)) := rfl

/-! ## C9 — teardown issuance is sequential, not concurrent -/

/-- C9: the claim fails on the code.  Each deletion is `await`ed before the
next one is issued (proxy.py lines 249-266), so issuance is sequential and
dependent: when the endpoint-mapping deletion fails (status 500 here), the
service and ingress deletions are never issued at all — the trace contains
exactly one deletion — and the call fails with that first error instead of
joining three outcomes. -/
theorem delete_route_first_failure_stops_rest :
    delete_route wEpDelete500 "/user/a"
      = ([Event.delete Kind.endpoints "default"
            (pyLower (safe_name_for_routespec "/user/a"))],
         Except.error (PyErr.apiErr 500)) := rfl

/-! ## C6 — endpoint-absent branch of add_route -/

/-- C6: the claim fails on the code.  With no builder-produced
endpoint-mapping body and no existing endpoint-mapping (deletion returns
404), `add_route` does not proceed to the service step: the `await` on
proxy.py line 207 raises the 404 `ApiException` immediately, `add_route`
fails, and the trace (a single endpoint deletion, no service event) shows
the service step is never reached. -/
theorem add_route_endpoint_absent_404_raises :
    add_route (fun _ => false) (fun n : Nat => toString n) wAllAbsent
        "/user/a" "http://pod:8888" 5
      = ([Event.delete Kind.endpoints "default"
            (pyLower (safe_name_for_routespec "/user/a"))],
         Except.error (PyErr.apiErr 404)) := rfl

/-! ## C2 — create-or-patch conflict policy of ensure_object -/

/-- C2: for every resource kind upserted through `ensure_object`, a create
failing with Conflict (409) leads to exactly one patch call addressed to the
same namespace and the same `body.metadata.name`, and the conflict is not
surfaced (the upsert succeeds whenever the patch succeeds); a create failing
with any status other than 409 is re-raised unmodified and no patch is
issued. -/
theorem ensure_object_conflict_policy (createO patchO : ApiOutcome) (ns : String)
    (body : KubeBody) (k : Kind) :
    (createO = ApiOutcome.fail 409 →
      patchEvents (ensure_object createO patchO ns body k).1
          = [Event.patch k ns body.name]
        ∧ (patchO = ApiOutcome.success →
            (ensure_object createO patchO ns body k).2 = Except.ok ()))
    ∧ (∀ s : Nat, createO = ApiOutcome.fail s → s ≠ 409 →
        (ensure_object createO patchO ns body k).2 = Except.error (PyErr.apiErr s)
          ∧ patchEvents (ensure_object createO patchO ns body k).1 = []) := by
  constructor
  · intro h
    subst h
    cases patchO with
    | success => exact ⟨rfl, fun _ => rfl⟩
    | fail s2 =>
      refine ⟨rfl, ?_⟩
      intro hp
      exact ApiOutcome.noConfusion hp
  · intro s h hne
    subst h
    constructor
    · simp [ensure_object, hne]
    · simp only [ensure_object, if_neg hne]
      rfl

/-- Witness for C2: with a create that conflicts and a patch that succeeds,
exactly one patch is issued, addressed to the body's own name, and the
upsert succeeds. -/
theorem ensure_object_conflict_policy_witness :
    patchEvents (ensure_object (ApiOutcome.fail 409) ApiOutcome.success "default"
        ⟨"jupyter-x-route", [], []⟩ Kind.service).1
      = [Event.patch Kind.service "default" "jupyter-x-route"]
    ∧ (ensure_object (ApiOutcome.fail 409) ApiOutcome.success "default"
        ⟨"jupyter-x-route", [], []⟩ Kind.service).2 = Except.ok () := by
  have h := (ensure_object_conflict_policy (ApiOutcome.fail 409) ApiOutcome.success
    "default" ⟨"jupyter-x-route", [], []⟩ Kind.service).1 rfl
  exact ⟨h.1, h.2 rfl⟩

/-! ## C10 — get_all_routes fails wholesale on a malformed cache entry -/

/-- C10: if any single cached ingress lacks one of the three annotation keys,
or carries a data annotation that does not decode, the whole `get_all_routes`
call raises and returns no routes at all, the well-formed entries included. -/
theorem get_all_routes_raises_on_malformed {J : Type} (loads : String → Option J)
    (cache : List KubeBody) (b : KubeBody) (hb : b ∈ cache)
    (hbad : lookupAnnot b routespecKey = none ∨ lookupAnnot b targetKey = none
      ∨ lookupAnnot b dataKey = none
      ∨ ∃ s, lookupAnnot b dataKey = some s ∧ loads s = none) :
    ∃ err, get_all_routes loads cache = Except.error err := by
  have herr : ∃ e0, route_record_of_ingress loads b = Except.error e0 := by
    rcases hbad with h | h | h | ⟨s2, hs2, hl2⟩
    · exact ⟨RouteErr.keyErr, by simp only [route_record_of_ingress, h]⟩
    · rcases h1 : lookupAnnot b routespecKey with _ | r
      · exact ⟨RouteErr.keyErr, by simp only [route_record_of_ingress, h1]⟩
      · exact ⟨RouteErr.keyErr, by simp only [route_record_of_ingress, h1, h]⟩
    · rcases h1 : lookupAnnot b routespecKey with _ | r
      · exact ⟨RouteErr.keyErr, by simp only [route_record_of_ingress, h1]⟩
      · rcases h2 : lookupAnnot b targetKey with _ | t
        · exact ⟨RouteErr.keyErr, by simp only [route_record_of_ingress, h1, h2]⟩
        · exact ⟨RouteErr.keyErr, by simp only [route_record_of_ingress, h1, h2, h]⟩
    · rcases h1 : lookupAnnot b routespecKey with _ | r
      · exact ⟨RouteErr.keyErr, by simp only [route_record_of_ingress, h1]⟩
      · rcases h2 : lookupAnnot b targetKey with _ | t
        · exact ⟨RouteErr.keyErr, by simp only [route_record_of_ingress, h1, h2]⟩
        · exact ⟨RouteErr.jsonErr, by
            simp only [route_record_of_ingress, h1, h2, hs2, hl2]⟩
  clear hbad
  induction cache with
  | nil => cases hb
  | cons a rest ih =>
    rcases herr with ⟨e0, he0⟩
    rcases List.mem_cons.mp hb with rfl | hmem
    · exact ⟨e0, by simp [get_all_routes, he0]⟩
    · rcases ih hmem with ⟨e1, he1⟩
      cases ha : route_record_of_ingress loads a with
      | error ea => exact ⟨ea, by simp [get_all_routes, ha]⟩
      | ok kv => exact ⟨e1, by simp [get_all_routes, ha, he1]⟩

/-- Witness for C10: a cache holding one well-formed ingress and one ingress
with no data annotation makes the whole call fail. -/
theorem get_all_routes_raises_on_malformed_witness :
    ∃ err, get_all_routes String.toNat? [goodIngressObj, badIngressObj]
      = Except.error err :=
  get_all_routes_raises_on_malformed String.toNat? [goodIngressObj, badIngressObj]
    badIngressObj (by decide)
    (Or.inr (Or.inr (Or.inl rfl)))

/-! ## C4 — add_route runs its three steps strictly in order -/

theorem endpoint_step_ok (w : World) (endpoint : Option KubeBody) (sn : String)
    (h : (endpoint_step w endpoint sn).2 = Except.ok ()) :
    ∃ tr1, (endpoint_step w endpoint sn).1
        = tr1 ++ [Event.confirmed Kind.endpoints w.ns sn]
      ∧ ∀ e ∈ tr1, eventKind e = Kind.endpoints := by
  cases endpoint with
  | none =>
    exfalso
    unfold endpoint_step at h
    cases hd : w.deleteOutcome Kind.endpoints with
    | fail s => rw [hd] at h; cases h
    | success => rw [hd] at h; cases h
  | some body =>
    unfold endpoint_step at h ⊢
    obtain ⟨h1, h2, htr⟩ := awaitSeq_ok _ _ h
    have hw := wait_step_ok (w.visible Kind.endpoints) w.backoffBudget Kind.endpoints
      w.ns sn h2
    refine ⟨(ensure_object (w.createOutcome Kind.endpoints) (w.patchOutcome Kind.endpoints)
      w.ns body Kind.endpoints).1, ?_, ?_⟩
    · rw [htr, congrArg Prod.fst hw]
    · intro e he
      exact (ensure_object_trace _ _ _ _ _ e he).1

theorem add_route_core_ok (w : World) (endpoint : Option KubeBody)
    (service ingress : KubeBody) (sn : String)
    (h : (add_route_core w endpoint service ingress sn).2 = Except.ok ()) :
    ∃ tr1 tr2 tr3 : List Event,
      (add_route_core w endpoint service ingress sn).1
        = tr1 ++ (Event.confirmed Kind.endpoints w.ns sn
            :: (tr2 ++ (Event.confirmed Kind.service w.ns sn
              :: (tr3 ++ [Event.confirmed Kind.ingress w.ns sn]))))
      ∧ (∀ e ∈ tr1, eventKind e = Kind.endpoints)
      ∧ (∀ e ∈ tr2, eventKind e = Kind.service)
      ∧ (∀ e ∈ tr3, eventKind e = Kind.ingress) := by
  unfold add_route_core at h ⊢
  obtain ⟨h1, hr1, htr1⟩ := awaitSeq_ok _ _ h
  obtain ⟨h2, hr2, htr2⟩ := awaitSeq_ok _ _ hr1
  obtain ⟨h3, hr3, htr3⟩ := awaitSeq_ok _ _ hr2
  obtain ⟨h4, h5, htr4⟩ := awaitSeq_ok _ _ hr3
  obtain ⟨tr1, hep, hk1⟩ := endpoint_step_ok w endpoint sn h1
  have hwS := wait_step_ok (w.visible Kind.service) w.backoffBudget Kind.service
    w.ns sn h3
  have hwI := wait_step_ok (w.visible Kind.ingress) w.backoffBudget Kind.ingress
    w.ns sn h5
  refine ⟨tr1,
    (ensure_object (w.createOutcome Kind.service) (w.patchOutcome Kind.service)
      w.ns service Kind.service).1,
    (ensure_object (w.createOutcome Kind.ingress) (w.patchOutcome Kind.ingress)
      w.ns ingress Kind.ingress).1, ?_, hk1, ?_, ?_⟩
  · rw [htr1, htr2, htr3, htr4, hep, congrArg Prod.fst hwS, congrArg Prod.fst hwI]
    simp [List.append_assoc]
  · intro e he
    exact (ensure_object_trace _ _ _ _ _ e he).1
  · intro e he
    exact (ensure_object_trace _ _ _ _ _ e he).1

/-- C4: whenever `add_route` completes successfully, its trace decomposes as
an endpoint-mapping segment closed by the endpoint cache confirmation, then
a service segment closed by the service cache confirmation, then an ingress
segment closed by the ingress cache confirmation as the very last event: the
three steps run strictly sequentially in the fixed order endpoint-mapping,
service, ingress; no ingress write is issued before the service is confirmed
visible, and the call returns only after the ingress itself is confirmed
visible. -/
theorem add_route_steps_sequential {J : Type} (ipPolicy : String → Bool)
    (dumps : J → String) (w : World) (routespec target : String) (data : J)
    (h : (add_route ipPolicy dumps w routespec target data).2 = Except.ok ()) :
    ∃ tr1 tr2 tr3 : List Event,
      (add_route ipPolicy dumps w routespec target data).1
        = tr1 ++ (Event.confirmed Kind.endpoints w.ns
              (pyLower (safe_name_for_routespec routespec))
            :: (tr2 ++ (Event.confirmed Kind.service w.ns
                (pyLower (safe_name_for_routespec routespec))
              :: (tr3 ++ [Event.confirmed Kind.ingress w.ns
                (pyLower (safe_name_for_routespec routespec))]))))
      ∧ (∀ e ∈ tr1, eventKind e = Kind.endpoints)
      ∧ (∀ e ∈ tr2, eventKind e = Kind.service)
      ∧ (∀ e ∈ tr3, eventKind e = Kind.ingress) :=
  add_route_core_ok w _ _ _ (pyLower (safe_name_for_routespec routespec)) h

/-- Witness for C4: in a healthy cluster a concrete `add_route` call
succeeds and its trace admits the sequential decomposition. -/
theorem add_route_steps_sequential_witness :
    (add_route (fun _ => true) (fun n : Nat => toString n) wGood "/user/a"
        "http://1.2.3.4:8888" 5).2 = Except.ok ()
    ∧ ∃ tr1 tr2 tr3 : List Event,
      (add_route (fun _ => true) (fun n : Nat => toString n) wGood "/user/a"
          "http://1.2.3.4:8888" 5).1
        = tr1 ++ (Event.confirmed Kind.endpoints wGood.ns
              (pyLower (safe_name_for_routespec "/user/a"))
            :: (tr2 ++ (Event.confirmed Kind.service wGood.ns
                (pyLower (safe_name_for_routespec "/user/a"))
              :: (tr3 ++ [Event.confirmed Kind.ingress wGood.ns
                (pyLower (safe_name_for_routespec "/user/a"))]))))
      ∧ (∀ e ∈ tr1, eventKind e = Kind.endpoints)
      ∧ (∀ e ∈ tr2, eventKind e = Kind.service)
      ∧ (∀ e ∈ tr3, eventKind e = Kind.ingress) :=
  ⟨rfl, add_route_steps_sequential (fun _ => true) (fun n : Nat => toString n) wGood
    "/user/a" "http://1.2.3.4:8888" 5 rfl⟩

/-! ## C5 — confirmation timeout is a bounded, surfaced hard failure -/

/-- C5: if the ingress cache never comes to contain `namespace/safe_name`
after the (successful) writes, `add_route` does not loop forever: the
bounded-budget backoff wait exhausts and the call surfaces the
confirmation-timeout error as the failure of the whole call.  (Termination
itself is inherent: the embedded backoff polls a bounded budget, matching
the capped backoff of the source.) -/
theorem add_route_confirmation_timeout {J : Type} (ipPolicy : String → Bool)
    (dumps : J → String) (w : World) (routespec target : String) (data : J)
    (hip : ipPolicy target = true)
    (hce : w.createOutcome Kind.endpoints = ApiOutcome.success)
    (hcs : w.createOutcome Kind.service = ApiOutcome.success)
    (hci : w.createOutcome Kind.ingress = ApiOutcome.success)
    (hve : (List.range w.backoffBudget).any (w.visible Kind.endpoints) = true)
    (hvs : (List.range w.backoffBudget).any (w.visible Kind.service) = true)
    (hvi : ∀ i, w.visible Kind.ingress i = false) :
    (add_route ipPolicy dumps w routespec target data).2
      = Except.error PyErr.timeoutErr := by
  have hanyI : (List.range w.backoffBudget).any (w.visible Kind.ingress) = false := by
    rw [List.any_eq_false]
    intro i hi
    simp [hvi i]
  simp [add_route, make_ingress, hip, add_route_core, endpoint_step, ensure_object,
    hce, hcs, hci, wait_step, exponential_backoff, hve, hvs, hanyI, awaitSeq]

/-- Witness for C5: with a concrete stale ingress cache, a concrete
`add_route` call fails with the confirmation-timeout error. -/
theorem add_route_confirmation_timeout_witness :
    (add_route (fun _ => true) (fun n : Nat => toString n) wIngressStale "/user/a"
        "http://1.2.3.4:8888" 5).2 = Except.error PyErr.timeoutErr :=
  add_route_confirmation_timeout (fun _ => true) (fun n : Nat => toString n)
    wIngressStale "/user/a" "http://1.2.3.4:8888" 5 rfl rfl rfl rfl (by decide)
    (by decide) (fun i => rfl)

/-! ## C8 — one deterministic name addresses the same resources -/

theorem endpoint_step_names (w : World) (ep : Option KubeBody) (sn : String)
    (hbody : ∀ b, ep = some b → b.name = sn) :
    ∀ e ∈ (endpoint_step w ep sn).1, eventName e = sn := by
  intro e he
  cases ep with
  | none =>
    unfold endpoint_step at he
    cases hd : w.deleteOutcome Kind.endpoints with
    | fail s =>
      rw [hd] at he
      simp at he
      subst he
      rfl
    | success =>
      rw [hd] at he
      simp at he
      subst he
      rfl
  | some body =>
    have hb := hbody body rfl
    unfold endpoint_step at he
    rcases mem_awaitSeq _ _ _ he with h | h
    · rw [(ensure_object_trace _ _ _ _ _ e h).2.1, hb]
    · rw [wait_step_trace _ _ _ _ _ e h]
      rfl

theorem add_route_core_names (w : World) (ep : Option KubeBody)
    (service ingress : KubeBody) (sn : String)
    (hbody : ∀ b, ep = some b → b.name = sn)
    (hsvc : service.name = sn) (hing : ingress.name = sn) :
    ∀ e ∈ (add_route_core w ep service ingress sn).1, eventName e = sn := by
  intro e he
  unfold add_route_core at he
  rcases mem_awaitSeq _ _ _ he with h | h
  · exact endpoint_step_names w ep sn hbody e h
  · rcases mem_awaitSeq _ _ _ h with h | h
    · rw [(ensure_object_trace _ _ _ _ _ e h).2.1, hsvc]
    · rcases mem_awaitSeq _ _ _ h with h | h
      · rw [wait_step_trace _ _ _ _ _ e h]
        rfl
      · rcases mem_awaitSeq _ _ _ h with h | h
        · rw [(ensure_object_trace _ _ _ _ _ e h).2.1, hing]
        · rw [wait_step_trace _ _ _ _ _ e h]
          rfl

theorem delete_route_names (w : World) (routespec : String) :
    ∀ e ∈ (delete_route w routespec).1,
      eventName e = pyLower (safe_name_for_routespec routespec) := by
  intro e he
  cases hd1 : w.deleteOutcome Kind.endpoints with
  | fail s =>
    simp only [delete_route, hd1] at he
    simp at he
    subst he
    rfl
  | success =>
    cases hd2 : w.deleteOutcome Kind.service with
    | fail s =>
      simp only [delete_route, hd1, hd2] at he
      simp at he
      rcases he with rfl | rfl <;> rfl
    | success =>
      cases hd3 : w.deleteOutcome Kind.ingress with
      | fail s =>
        simp only [delete_route, hd1, hd2, hd3] at he
        simp at he
        rcases he with rfl | rfl | rfl <;> rfl
      | success =>
        simp only [delete_route, hd1, hd2, hd3] at he
        simp at he
        rcases he with rfl | rfl | rfl <;> rfl

/-- C8: `safe_name_for_routespec` is a pure function of the routespec — the
embedding makes it a mathematical function, so two calls on the same input
are the identical string — and both `add_route` and `delete_route` address
every API call they issue (in any cluster state, success or failure) to that
single derived name, so an `add_route(r, ...)` and a later `delete_route(r)`
or repeated `add_route(r, ...)` always target the same cluster resources. -/
theorem safe_name_deterministic_same_resources {J : Type} (ipPolicy : String → Bool)
    (dumps : J → String) (w w2 : World) (routespec target : String) (data : J) :
    (∀ e ∈ (add_route ipPolicy dumps w routespec target data).1,
      eventName e = pyLower (safe_name_for_routespec routespec))
    ∧ ∀ e ∈ (delete_route w2 routespec).1,
      eventName e = pyLower (safe_name_for_routespec routespec) := by
  constructor
  · intro e he
    refine add_route_core_names w
      (make_ingress ipPolicy dumps (pyLower (safe_name_for_routespec routespec))
        routespec target (add_route_labels w.component_label) data).1
      (make_ingress ipPolicy dumps (pyLower (safe_name_for_routespec routespec))
        routespec target (add_route_labels w.component_label) data).2.1
      (make_ingress ipPolicy dumps (pyLower (safe_name_for_routespec routespec))
        routespec target (add_route_labels w.component_label) data).2.2
      (pyLower (safe_name_for_routespec routespec)) ?_ rfl rfl e he
    intro b hb
    have hb2 : (if ipPolicy target then
        some (⟨pyLower (safe_name_for_routespec routespec),
          add_route_labels w.component_label, []⟩ : KubeBody) else none) = some b := hb
    by_cases hip : ipPolicy target
    · rw [if_pos hip] at hb2
      cases hb2
      rfl
    · rw [if_neg hip] at hb2
      cases hb2
  · exact delete_route_names w2 routespec

/-- Witness for C8: a concrete deletion event issued by `delete_route` is
addressed to the derived safe name of its routespec. -/
theorem safe_name_deterministic_same_resources_witness :
    eventName (Event.delete Kind.endpoints "default"
        (pyLower (safe_name_for_routespec "/user/a")))
      = pyLower (safe_name_for_routespec "/user/a") :=
  (safe_name_deterministic_same_resources (fun _ => true) (fun n : Nat => toString n)
      wGood wAllAbsent "/user/a" "http://1.2.3.4:8888" 5).2
    (Event.delete Kind.endpoints "default" (pyLower (safe_name_for_routespec "/user/a")))
    (by decide)

/-! ## C7 — safe-name alphabet and length -/

/-- C7 counterexample: the claim that every character of
`safe_name_for_routespec(r)` is a lowercase letter or a digit is false
already at the empty routespec: the name is `jupyter--route`, which contains
the dash `-` (from the fixed prefix and the escape character, both literal in
proxy.py lines 144-147). -/
theorem safe_name_lowercase_digits_only_fails :
    ¬ ((safe_name_for_routespec "").data.all
        (fun c => c.isLower || c.isDigit) = true) := by
  decide

theorem digitChar_safe (n : Nat) (h : n < 16) :
    ((Nat.digitChar n).isLower || (Nat.digitChar n).isDigit) = true := by
  interval_cases n <;> decide

theorem safe_or_dash_weaken (c : Char) (h : (c.isLower || c.isDigit) = true) :
    (c.isLower || c.isDigit || c == '-') = true := by
  simp only [Bool.or_eq_true] at h ⊢
  exact Or.inl h

theorem hexAux_safe (fuel : Nat) : ∀ (n : Nat), ∀ c ∈ hexAux fuel n,
    (c.isLower || c.isDigit) = true := by
  induction fuel with
  | zero =>
    intro n c hc
    cases hc
  | succ f ih =>
    intro n c hc
    unfold hexAux at hc
    by_cases h : n < 16
    · rw [if_pos h] at hc
      simp at hc
      subst hc
      exact digitChar_safe n h
    · rw [if_neg h] at hc
      rcases List.mem_append.mp hc with h1 | h1
      · exact ih _ c h1
      · simp at h1
        subst h1
        exact digitChar_safe _ (Nat.mod_lt _ (by norm_num))

theorem mem_concatChars (f : Char → List Char) (l : List Char) (c : Char)
    (hc : c ∈ concatChars f l) : ∃ a ∈ l, c ∈ f a := by
  induction l with
  | nil => cases hc
  | cons a as ih =>
    unfold concatChars at hc
    rcases List.mem_append.mp hc with h | h
    · exact ⟨a, List.mem_cons_self a as, h⟩
    · rcases ih h with ⟨a2, ha2, hfa⟩
      exact ⟨a2, List.mem_cons_of_mem a ha2, hfa⟩

theorem escape_safe (r : String) :
    ∀ c ∈ (escape r safe_chars '-').data,
      (c.isLower || c.isDigit || c == '-') = true := by
  intro c hc
  rcases mem_concatChars _ _ _ hc with ⟨a, ha, hfa⟩
  by_cases hs : safe_chars a
  · rw [if_pos hs] at hfa
    simp at hfa
    subst hfa
    exact safe_or_dash_weaken c hs
  · rw [if_neg hs] at hfa
    rcases List.mem_cons.mp hfa with rfl | h
    · decide
    · exact safe_or_dash_weaken c (hexAux_safe _ _ c h)

theorem slug_chars_safe (r : String) :
    ∀ c ∈ ("jupyter-" ++ escape r safe_chars '-' ++ "-route").data,
      (c.isLower || c.isDigit || c == '-') = true := by
  intro c hc
  rw [data_append_eq, data_append_eq] at hc
  rcases List.mem_append.mp hc with h | h
  · rcases List.mem_append.mp h with h1 | h1
    · have hall : ∀ x ∈ "jupyter-".data, (x.isLower || x.isDigit || x == '-') = true := by
        decide
      exact hall c h1
    · exact escape_safe r c h1
  · have hall : ∀ x ∈ "-route".data, (x.isLower || x.isDigit || x == '-') = true := by
      decide
    exact hall c h

/-- C7 (amended): for every input string — empty, unicode, or containing
characters outside the safe alphabet — `safe_name_for_routespec` produces
without error a string whose every character is a lowercase ASCII letter, a
digit, or the dash `-`, and which satisfies the platform resource-name
constraints: nonempty, at most 63 characters, and beginning with the
alphanumeric `j`. -/
theorem safe_name_cluster_legal (r : String) :
    (safe_name_for_routespec r).data.all
        (fun c => c.isLower || c.isDigit || c == '-') = true
    ∧ 0 < (safe_name_for_routespec r).length
    ∧ (safe_name_for_routespec r).length ≤ 63
    ∧ (safe_name_for_routespec r).data.head? = some 'j' := by
  unfold safe_name_for_routespec generate_hashed_slug
  by_cases hlt : ("jupyter-" ++ escape r safe_chars '-' ++ "-route").length < 57
  · rw [if_pos hlt]
    refine ⟨?_, ?_, ?_, ?_⟩
    · rw [List.all_eq_true]
      exact slug_chars_safe r
    · rw [length_append_eq, show ("-route").length = 6 from rfl]
      omega
    · omega
    · rfl
  · rw [if_neg hlt]
    refine ⟨?_, ?_, ?_, ?_⟩
    · rw [List.all_eq_true]
      intro c hc
      show (c.isLower || c.isDigit || c == '-') = true
      have hc2 : c ∈ ("jupyter-" ++ escape r safe_chars '-' ++ "-route").data.take 56
          ++ '-' :: hash6 ("jupyter-" ++ escape r safe_chars '-' ++ "-route") := hc
      rcases List.mem_append.mp hc2 with h | h
      · exact slug_chars_safe r c (List.take_subset _ _ h)
      · rcases List.mem_cons.mp h with rfl | h2
        · decide
        · unfold hash6 at h2
          simp at h2
          rcases h2 with rfl | rfl | rfl | rfl | rfl | rfl <;>
            exact safe_or_dash_weaken _ (digitChar_safe _ (Nat.mod_lt _ (by norm_num)))
    · show 0 < (("jupyter-" ++ escape r safe_chars '-' ++ "-route").data.take 56
        ++ '-' :: hash6 ("jupyter-" ++ escape r safe_chars '-' ++ "-route")).length
      rw [List.length_append, List.length_cons]
      omega
    · show (("jupyter-" ++ escape r safe_chars '-' ++ "-route").data.take 56
        ++ '-' :: hash6 ("jupyter-" ++ escape r safe_chars '-' ++ "-route")).length ≤ 63
      rw [List.length_append, List.length_cons, List.length_take,
        show (hash6 ("jupyter-" ++ escape r safe_chars '-' ++ "-route")).length = 6 from rfl]
      have hm : min 56 ("jupyter-" ++ escape r safe_chars '-' ++ "-route").data.length
          ≤ 56 := Nat.min_le_left _ _
      omega
    · rfl

/-! ## C3 — round-trip through the ingress annotations -/

theorem lookupAnnot_mk_routespec (nm : String) (labels : List (String × String))
    (r t s : String) :
    lookupAnnot ⟨nm, labels, [(routespecKey, r), (targetKey, t), (dataKey, s)]⟩
      routespecKey = some r := rfl

theorem lookupAnnot_mk_target (nm : String) (labels : List (String × String))
    (r t s : String) :
    lookupAnnot ⟨nm, labels, [(routespecKey, r), (targetKey, t), (dataKey, s)]⟩
      targetKey = some t := rfl

theorem lookupAnnot_mk_data (nm : String) (labels : List (String × String))
    (r t s : String) :
    lookupAnnot ⟨nm, labels, [(routespecKey, r), (targetKey, t), (dataKey, s)]⟩
      dataKey = some s := rfl

theorem get_all_routes_ok_of_mem {J : Type} (loads : String → Option J)
    (cache : List KubeBody) (l : List (String × RouteRecord J))
    (h : get_all_routes loads cache = Except.ok l) :
    (∀ kv ∈ l, ∃ b ∈ cache, route_record_of_ingress loads b = Except.ok kv)
    ∧ (∀ b ∈ cache, ∃ kv ∈ l, route_record_of_ingress loads b = Except.ok kv) := by
  induction cache generalizing l with
  | nil =>
    simp [get_all_routes] at h
    subst h
    constructor
    · intro kv hkv
      exact absurd hkv (List.not_mem_nil kv)
    · intro b hb
      exact absurd hb (List.not_mem_nil b)
  | cons b rest ih =>
    simp only [get_all_routes] at h
    cases hr : route_record_of_ingress loads b with
    | error e =>
      rw [hr] at h
      cases h
    | ok kv =>
      rw [hr] at h
      cases hrest : get_all_routes loads rest with
      | error e =>
        rw [hrest] at h
        cases h
      | ok l2 =>
        rw [hrest] at h
        simp at h
        subst h
        obtain ⟨ih1, ih2⟩ := ih l2 hrest
        constructor
        · intro kv2 hkv2
          rcases List.mem_cons.mp hkv2 with rfl | h2
          · exact ⟨b, List.mem_cons_self b rest, hr⟩
          · rcases ih1 kv2 h2 with ⟨b2, hb2, hr2⟩
            exact ⟨b2, List.mem_cons_of_mem b hb2, hr2⟩
        · intro b2 hb2
          rcases List.mem_cons.mp hb2 with rfl | h2
          · exact ⟨kv, List.mem_cons_self kv l2, hr⟩
          · rcases ih2 b2 h2 with ⟨kv2, hkv2, hr2⟩
            exact ⟨kv2, List.mem_cons_of_mem kv hkv2, hr2⟩

theorem route_record_of_ingress_key {J : Type} (loads : String → Option J)
    (b : KubeBody) (k : String) (rec : RouteRecord J)
    (h : route_record_of_ingress loads b = Except.ok (k, rec)) :
    lookupAnnot b routespecKey = some k := by
  cases h1 : lookupAnnot b routespecKey with
  | none => simp [route_record_of_ingress, h1] at h
  | some r =>
    cases h2 : lookupAnnot b targetKey with
    | none => simp [route_record_of_ingress, h1, h2] at h
    | some t =>
      cases h3 : lookupAnnot b dataKey with
      | none => simp [route_record_of_ingress, h1, h2, h3] at h
      | some s =>
        cases h4 : loads s with
        | none => simp [route_record_of_ingress, h1, h2, h3, h4] at h
        | some d =>
          have h5 : route_record_of_ingress loads b
              = Except.ok (r, (⟨r, t, d⟩ : RouteRecord J)) := by
            simp only [route_record_of_ingress, h1, h2, h3, h4]
          rw [h5] at h
          injection h with h6
          injection h6 with h7 h8
          subst h7
          rfl

theorem find?_unique {α : Type} (p : α → Bool) (l : List α) (q : α)
    (hmem : q ∈ l) (hq : p q = true)
    (huni : ∀ x ∈ l, p x = true → x = q) : l.find? p = some q := by
  induction l with
  | nil => cases hmem
  | cons a as ih =>
    by_cases ha : p a = true
    · have haq : a = q := huni a (List.mem_cons_self a as) ha
      subst haq
      rw [List.find?_cons_of_pos _ ha]
    · rw [List.find?_cons_of_neg _ (by simp [ha])]
      have hmem2 : q ∈ as := by
        rcases List.mem_cons.mp hmem with rfl | h
        · exact absurd hq ha
        · exact h
      exact ih hmem2 (fun x hx hpx => huni x (List.mem_cons_of_mem a hx) hpx)

/-- C3: whenever `add_route(r, t, d)` completes, the Ingress body it wrote
(the one produced by the Resource Builder, carrying the three fixed
annotation keys) is in the cache, no other cached ingress claims routespec
`r`, and `get_all_routes` succeeds on that cache, the returned mapping —
keyed by routespec, not by safe name — has at key `r` exactly
`{routespec: r, target: t, data: d}`, with `d` recovered by JSON-decoding
the data annotation. -/
theorem add_route_get_all_routes_roundtrip {J : Type} (ipPolicy : String → Bool)
    (dumps : J → String) (loads : String → Option J) (w : World)
    (routespec target : String) (data : J) (cache : List KubeBody)
    (routes : List (String × RouteRecord J))
    (hadd : (add_route ipPolicy dumps w routespec target data).2 = Except.ok ())
    (hmem : (make_ingress ipPolicy dumps (pyLower (safe_name_for_routespec routespec))
        routespec target (add_route_labels w.component_label) data).2.2 ∈ cache)
    (huniq : ∀ b ∈ cache, lookupAnnot b routespecKey = some routespec →
      b = (make_ingress ipPolicy dumps (pyLower (safe_name_for_routespec routespec))
        routespec target (add_route_labels w.component_label) data).2.2)
    (hjson : loads (dumps data) = some data)
    (hroutes : get_all_routes loads cache = Except.ok routes) :
    dictGet routes routespec = some ⟨routespec, target, data⟩ := by
  have hproj : route_record_of_ingress loads
      (make_ingress ipPolicy dumps (pyLower (safe_name_for_routespec routespec))
        routespec target (add_route_labels w.component_label) data).2.2
      = Except.ok (routespec, ⟨routespec, target, data⟩) := by
    simp only [make_ingress, route_record_of_ingress, lookupAnnot_mk_routespec,
      lookupAnnot_mk_target, lookupAnnot_mk_data, hjson]
  obtain ⟨hforward, hbackward⟩ := get_all_routes_ok_of_mem loads cache routes hroutes
  obtain ⟨kv, hkv, hkvr⟩ := hbackward _ hmem
  rw [hproj] at hkvr
  injection hkvr with hkv2
  subst hkv2
  have huni2 : ∀ x ∈ routes.reverse, (fun p => p.1 == routespec) x = true
      → x = (routespec, (⟨routespec, target, data⟩ : RouteRecord J)) := by
    rintro ⟨xk, xrec⟩ hx hpx
    have hx2 : (xk, xrec) ∈ routes := List.mem_reverse.mp hx
    obtain ⟨b2, hb2, hr2⟩ := hforward _ hx2
    have hxk : xk = routespec := eq_of_beq hpx
    subst hxk
    have hkey := route_record_of_ingress_key loads b2 xk xrec hr2
    have hb2eq := huniq b2 hb2 hkey
    rw [hb2eq, hproj] at hr2
    injection hr2 with h9
    exact h9.symm
  have hmemrev : (routespec, (⟨routespec, target, data⟩ : RouteRecord J))
      ∈ routes.reverse := List.mem_reverse.mpr hkv
  unfold dictGet
  rw [find?_unique (fun p => p.1 == routespec) routes.reverse
    (routespec, ⟨routespec, target, data⟩) hmemrev (by simp) huni2]
  rfl

/-- Witness for C3: a concrete round trip through a one-entry cache holding
exactly the ingress body a concrete `add_route` call wrote (the opaque JSON
payload is represented by its serialized text, with the identity codec). -/
theorem add_route_get_all_routes_roundtrip_witness :
    dictGet [("/user/a",
        (⟨"/user/a", "http://1.2.3.4:8888", "d1"⟩ : RouteRecord String))]
        "/user/a"
      = some ⟨"/user/a", "http://1.2.3.4:8888", "d1"⟩ :=
  add_route_get_all_routes_roundtrip (fun _ => true) (fun s : String => s)
    (fun s : String => some s) wGood "/user/a" "http://1.2.3.4:8888" "d1"
    [(make_ingress (fun _ => true) (fun s : String => s)
        (pyLower (safe_name_for_routespec "/user/a")) "/user/a" "http://1.2.3.4:8888"
        (add_route_labels wGood.component_label) "d1").2.2]
    [("/user/a", ⟨"/user/a", "http://1.2.3.4:8888", "d1"⟩)]
    rfl (List.mem_singleton.mpr rfl)
    (by
      intro b hb _
      simpa using hb)
    rfl rfl
